import Mathlib

/-!
Verification development for the ATA/SNAP UDP voltage-ingest core
(src/hpguppi_atasnap_voltage_thread.c).  The C data structures and the
pure logic of the packet-to-block assembler, the scatter address math,
the finalize path, the start/stop state gating and the once-per-block
status-buffer latch are shallowly embedded as executable Lean functions.
Machine integers are modelled as Nat/Int with explicit `% 2^w` where the
C arithmetic can wrap.
-/

set_option autoImplicit false

/-! ### Block management (struct block_info and its operations) -/

/-- Embedding of `struct block_info` (hpguppi_atasnap_voltage_thread.c,
lines 107-120).  The two databuf pointers are irrelevant to the logic and
omitted; `block_idx_out` is a C `int`, `block_num` a C `int64_t`, the two
per-block sizes are `uint64_t`, and the counters are `uint32_t`. -/
structure BlockInfo where
  block_idx_out : Int
  block_num : Int
  pktidx_per_block : Nat
  pkts_per_block : Nat
  npacket : Nat
  ndrop : Nat
deriving DecidableEq

/-- `reset_block_info_stats` (lines 135-139): zero the per-block counters. -/
def reset_block_info_stats (bi : BlockInfo) : BlockInfo :=
  { bi with npacket := 0, ndrop := 0 }

/-- `init_block_info` (lines 146-161) with the databuf argument dropped:
`block_idx_out` is overwritten only when the argument is `>= 0`,
`block_num` is always overwritten, `pkts_per_block` only when the argument
is `> 0`, and the stats are always reset. -/
def init_block_info (bi : BlockInfo) (block_idx_out : Int) (block_num : Int)
    (pkts_per_block : Nat) : BlockInfo :=
  reset_block_info_stats
    { bi with
      block_idx_out := if 0 ≤ block_idx_out then block_idx_out else bi.block_idx_out,
      block_num := block_num,
      pkts_per_block := if 0 < pkts_per_block then pkts_per_block else bi.pkts_per_block }

/-- The header fields written by `finalize_block` (lines 164-188) together
with the ring slot that is marked filled (`hpguppi_input_databuf_set_filled`).
`block_num` records which absolute block was finalized (it equals
`pktidx / pktidx_per_block` of the header's PKTIDX). -/
structure FinalizedHeader where
  block_num : Int
  pktidx : Int
  npkt : Nat
  ndrop : Nat
  dropstat : String
  filled_idx : Int
deriving DecidableEq

/-- `finalize_block` (lines 164-188): update `ndrop` when packets are
missing (the `uint32_t` store can wrap, hence the `% 2^32`), then write
PKTIDX, NPKT, NDROP and DROPSTAT into the block header and mark the block
filled.  The C function kills the thread when `block_idx_out < 0`; the
states reached in the modelled run always have `block_idx_out ≥ 0`. -/
def finalize_block (bi : BlockInfo) : BlockInfo × FinalizedHeader :=
  let bi1 :=
    if bi.npacket < bi.pkts_per_block then
      { bi with ndrop := (bi.pkts_per_block - bi.npacket) % 2 ^ 32 }
    else bi
  (bi1,
   { block_num := bi.block_num,
     pktidx := bi.block_num * (bi.pktidx_per_block : Int),
     npkt := bi1.npacket,
     ndrop := bi1.ndrop,
     dropstat := toString bi1.ndrop ++ "/" ++ toString bi1.pkts_per_block,
     filled_idx := bi.block_idx_out })

/-- `increment_block` (lines 195-210): advance the output ring slot by one
(mod the ring size `n_block`), set the new absolute block number, and reset
the stats. -/
def increment_block (n_block : Nat) (bi : BlockInfo) (block_num : Int) : BlockInfo :=
  reset_block_info_stats
    { bi with
      block_idx_out := (bi.block_idx_out + 1) % (n_block : Int),
      block_num := block_num }

/-! ### The two-wide working-block window and the per-packet decision table
(run(), lines 1183-1275) -/

/-- Observable actions of one assembler step: a block handed downstream
(`finalized` carries the header written by `finalize_block`), the
discontinuity warning, the free-wait on a ring slot performed before the
new working block is used, and a scatter of the packet into working block
`which ∈ {0, 1}` holding absolute block `blockNum`. -/
inductive Ev where
  | finalized (h : FinalizedHeader)
  | warned
  | waitedFree (idx : Int)
  | scattered (which : Nat) (blockNum : Int)
deriving DecidableEq

/-- Assembler state: the two working blocks `wblk[0]`, `wblk[1]` plus the
`nlate` and `ndrop_total` counters of run(). -/
structure AsmState where
  wblk0 : BlockInfo
  wblk1 : BlockInfo
  nlate : Nat
  ndrop_total : Nat
deriving DecidableEq

/-- Working-block window invariant (run() comment, lines 662-668 and spec
property 4): the second working block always holds the next absolute
block. -/
def window_inv (s : AsmState) : Prop :=
  s.wblk1.block_num = s.wblk0.block_num + 1

instance (s : AsmState) : Decidable (window_inv s) := by
  unfold window_inv; infer_instance

/-- The block-management part of the per-packet decision table
(lines 1183-1248), `eff_pkts = eff_block_size / ATA_SNAP_PKT_SIZE_PAYLOAD`:
advance (finalize `wblk[0]`, shift, acquire a new `wblk[1]`), or
discontinuity reinit (both blocks re-initialized in place for blocks
`B+1`, `B+2`, warning issued), or late-packet count, or nothing. -/
def manage_blocks (n_block eff_pkts : Nat) (s : AsmState) (B : Int) :
    AsmState × List Ev :=
  if B = s.wblk1.block_num + 1 then
    (⟨s.wblk1, increment_block n_block s.wblk1 B, s.nlate,
      s.ndrop_total + (finalize_block s.wblk0).1.ndrop⟩,
     [Ev.finalized (finalize_block s.wblk0).2,
      Ev.waitedFree (increment_block n_block s.wblk1 B).block_idx_out])
  else if B < s.wblk0.block_num - 1 ∨ s.wblk1.block_num + 1 < B then
    (⟨init_block_info s.wblk0 (-1) (B + 1) eff_pkts,
      init_block_info s.wblk1 (-1) (B + 2) eff_pkts,
      s.nlate, s.ndrop_total⟩,
     [Ev.warned])
  else if B = s.wblk0.block_num - 1 then
    ({ s with nlate := s.nlate + 1 }, [])
  else
    (s, [])

/-- The per-packet refresh done when a packet lands in a working block
(lines 1264-1274): update the block's `pkts_per_block` and
`pktidx_per_block` and count the packet. -/
def scatter_touch (eff_pkts piperblk : Nat) (bi : BlockInfo) : BlockInfo :=
  { bi with pkts_per_block := eff_pkts, pktidx_per_block := piperblk,
            npacket := bi.npacket + 1 }

/-- The per-packet scatter bookkeeping (lines 1259-1275): compute
`wblk_idx = B - wblk[0].block_num` and, when it is 0 or 1, refresh the
matching block, scatter the packet into it and bump its `npacket`. -/
def scatter_phase (eff_pkts piperblk : Nat) (s : AsmState) (B : Int) :
    AsmState × List Ev :=
  if B - s.wblk0.block_num = 0 then
    ({ s with wblk0 := scatter_touch eff_pkts piperblk s.wblk0 },
     [Ev.scattered 0 s.wblk0.block_num])
  else if B - s.wblk0.block_num = 1 then
    ({ s with wblk1 := scatter_touch eff_pkts piperblk s.wblk1 },
     [Ev.scattered 1 s.wblk1.block_num])
  else
    (s, [])

/-- One full per-packet assembler step: the decision table followed by the
scatter bookkeeping, with the emitted events in program order. -/
def asm_step (n_block eff_pkts piperblk : Nat) (s : AsmState) (B : Int) :
    AsmState × List Ev :=
  ((scatter_phase eff_pkts piperblk (manage_blocks n_block eff_pkts s B).1 B).1,
   (manage_blocks n_block eff_pkts s B).2
     ++ (scatter_phase eff_pkts piperblk (manage_blocks n_block eff_pkts s B).1 B).2)

/-- Process a list of packet indices: each packet's absolute block number
is `pktidx / piperblk` (line 1108), then the decision table runs. -/
def asm_run (n_block eff_pkts piperblk : Nat) (s : AsmState) :
    List Nat → AsmState × List Ev
  | [] => (s, [])
  | pk :: ps =>
    ((asm_run n_block eff_pkts piperblk
        (asm_step n_block eff_pkts piperblk s ((pk / piperblk : Nat) : Int)).1 ps).1,
     (asm_step n_block eff_pkts piperblk s ((pk / piperblk : Nat) : Int)).2
       ++ (asm_run n_block eff_pkts piperblk
            (asm_step n_block eff_pkts piperblk s ((pk / piperblk : Nat) : Int)).1 ps).2)

/-- The working blocks as initialized at thread startup (lines 777-780):
`init_block_info(wblk+i, dbout, i, i, 0)`; the never-yet-set size fields
are modelled as 0. -/
def asmInit : AsmState :=
  ⟨⟨0, 0, 0, 0, 0, 0⟩, ⟨1, 1, 0, 0, 0, 0⟩, 0, 0⟩

/-- The absolute block numbers of the blocks handed downstream, in emission
order. -/
def finalizedNums (evs : List Ev) : List Int :=
  evs.filterMap fun e =>
    match e with
    | Ev.finalized h => some h.block_num
    | _ => none

/-- The scatter events of a run as (working-block index, block number)
pairs, in emission order. -/
def scatterTargets (evs : List Ev) : List (Nat × Int) :=
  evs.filterMap fun e =>
    match e with
    | Ev.scattered w b => some (w, b)
    | _ => none

/-! ### Observation geometry and packet metadata -/

/-- Embedding of `struct ata_snap_obs_info` as used by this thread:
NANTS, NSTRM, PKTNTIME, PKTNCHAN, SCHAN.  SCHAN is a C `int`; in every
valid observation it is a non-negative first channel, modelled as Nat. -/
structure ObsInfo where
  nants : Nat
  nstrm : Nat
  pkt_ntime : Nat
  pkt_nchan : Nat
  schan : Nat
deriving DecidableEq

/-- Embedding of `struct ata_snap_feng_info`: the parsed packet header
(pktidx, feng_id, feng_chan) plus the payload size reported by the parser. -/
structure FengInfo where
  pktidx : Nat
  feng_id : Nat
  feng_chan : Nat
  payload_size : Nat
deriving DecidableEq

/-- Modelled from the spec: the constant `ATA_SNAP_PKT_SIZE_PAYLOAD`
(declared in hpguppi_atasnap.h, which is not part of the given sources) as
used for the 16-bit-unit stream stride.  Per spec section 4.2,
`stream_stride = PAYLOAD_BYTES/2 × PIPERBLK` in 16-bit units, and the
payload holds `PKTNTIME × PKTNCHAN` packed-polarization 16-bit units, so
the constant equals `PKTNTIME × PKTNCHAN`. -/
def ata_snap_pkt_size_payload (oi : ObsInfo) : Nat :=
  oi.pkt_ntime * oi.pkt_nchan

/-- `copy_packet_data_to_databuf` (lines 324-383) as a write-address map:
the destination offset, in 16-bit units from the start of the block's data
area, of the sample the inner loops write for time `t` and channel `c`
(the source sample is `src[t * pkt_nchan + c]`).  The base advance is the
code's literal `(p_fei->pktidx - bi->pktidx_per_block) * pktidx_stride`
(line 357), a `uint64_t` subtraction, hence the `% 2^64`. -/
def copy_packet_data_to_databuf (bi : BlockInfo) (oi : ObsInfo) (fei : FengInfo)
    (t c : Nat) : Nat :=
  let ostride := bi.pktidx_per_block * oi.pkt_ntime
  let stream_stride := ata_snap_pkt_size_payload oi * bi.pktidx_per_block
  let fid_stride := stream_stride * oi.nstrm
  let pktidx_stride := oi.pkt_nchan
  let stream := (fei.feng_chan - oi.schan) / oi.pkt_nchan
  fei.feng_id * fid_stride + stream * stream_stride
    + ((fei.pktidx + 2 ^ 64 - bi.pktidx_per_block) % 2 ^ 64) * pktidx_stride
    + t + c * ostride

/-- The claim's address math, written from the spec's words (refinement
comparison against `copy_packet_data_to_databuf`): base offset
`feng_id × fid_stride + stream × stream_stride + (pktidx mod PIPERBLK) ×
pktidx_stride`, sample (t, c) at `base + t + c × ostride`. -/
def claimed_scatter_offset (oi : ObsInfo) (piperblk : Nat) (fei : FengInfo)
    (t c : Nat) : Nat :=
  let ostride := piperblk * oi.pkt_ntime
  let stream_stride := ata_snap_pkt_size_payload oi * piperblk
  let fid_stride := stream_stride * oi.nstrm
  let pktidx_stride := oi.pkt_nchan
  let stream := (fei.feng_chan - oi.schan) / oi.pkt_nchan
  fei.feng_id * fid_stride + stream * stream_stride
    + (fei.pktidx % piperblk) * pktidx_stride
    + t + c * ostride

/-! ### Per-packet acceptance (run(), lines 1075-1104) -/

/-- The per-packet front-end filter of the main loop: the payload-size
check of lines 1079-1092 is compiled out (`#if 0`), so the only rejection
is `feng_id >= obs_info.nants` (lines 1095-1097). -/
def packet_accepted (oi : ObsInfo) (fei : FengInfo) : Bool :=
  fei.feng_id < oi.nants

/-- One packet through the main loop's data path: the front-end filter
followed by the assembler decision table on `B = pktidx / piperblk`.
Rejected packets change nothing. -/
def ingest_pkt (n_block eff_pkts piperblk : Nat) (oi : ObsInfo) (s : AsmState)
    (fei : FengInfo) : AsmState × List Ev :=
  if packet_accepted oi fei then
    asm_step n_block eff_pkts piperblk s ((fei.pktidx / piperblk : Nat) : Int)
  else
    (s, [])

/-! ### Once-per-block status republication (run(), lines 1120-1180) -/

/-- PKTSTART normalization (lines 1140-1142): the value read from the
status buffer is rounded down to a multiple of `pktidx_per_block` before
being written back (`start_seq_num -= start_seq_num % pktidx_per_block`). -/
def pktstart_writeback (start_seq_num piperblk : Nat) : Nat :=
  start_seq_num - start_seq_num % piperblk

/-- The `status_seq_num` latch guarding the once-per-block status-buffer
republication (lines 1122-1124): the update body runs exactly when the
packet's index is a block boundary and differs from the latched index, and
then the latch takes the packet's index.  The latch starts out
uninitialized, modelled as `none`. -/
def status_update_boundary (piperblk : Nat) (latch : Option Nat) (pktidx : Nat) :
    Option Nat × Bool :=
  if pktidx % piperblk = 0 ∧ some pktidx ≠ latch then (some pktidx, true)
  else (latch, false)

/-- Run the latch over a packet-index sequence, recording for each packet
whether it triggered the status-buffer republication. -/
def status_triggers (piperblk : Nat) (latch : Option Nat) :
    List Nat → List (Nat × Bool)
  | [] => []
  | pk :: ps =>
    let st := status_update_boundary piperblk latch pk
    (pk, st.2) :: status_triggers piperblk st.1 ps

/-- How many packets with index `v` triggered the republication. -/
def trigger_count (piperblk : Nat) (latch : Option Nat) (pkts : List Nat)
    (v : Nat) : Nat :=
  ((status_triggers piperblk latch pkts).filter fun x => x.1 = v ∧ x.2).length

/-! ### Observation state gating (check_start_stop, lines 397-461)

The C function works on doubles; they are modelled as exact rationals. -/

/-- The three run states (line 104). -/
inductive RunStates where
  | IDLE
  | LISTEN
  | RECORD
deriving DecidableEq

/-- C `rint`: round to nearest, ties to even. -/
def rintQ (q : ℚ) : ℤ :=
  if q - ⌊q⌋ < 1 / 2 then ⌊q⌋
  else if 1 / 2 < q - ⌊q⌋ then ⌊q⌋ + 1
  else if Even ⌊q⌋ then ⌊q⌋ else ⌊q⌋ + 1

/-- A C cast of a rational to an integer: truncation toward zero. -/
def truncQ (q : ℚ) : ℤ :=
  q.num / (q.den : ℤ)

/-- `struct timespec` as filled in by check_start_stop (lines 442-443). -/
structure Timespec where
  tv_sec : Int
  tv_nsec : Int
deriving DecidableEq

/-- Modelled from the spec: `get_mjd_from_timespec` lives in hpguppi_time,
which is not part of the given sources.  Per the spec (section 4.4 and the
glossary), it converts the wall-clock time to a Modified Julian Date
encoded as integer day, integer second of day and fractional second; the
Unix epoch is MJD 40587. -/
def get_mjd_from_timespec (ts : Timespec) : Int × Int × ℚ :=
  (40587 + ts.tv_sec / 86400, ts.tv_sec % 86400, (ts.tv_nsec : ℚ) / 1000000000)

/-- The status-buffer fields touched by check_start_stop.  `sttvalid` is a
`uint32_t`, `chan_bw` a double (exact rational here), `daqstate` the DAQSTATE
string. -/
structure StatusBuf where
  sttvalid : Nat
  pktstart : Nat
  pktstop : Nat
  pktntime : Nat
  chan_bw : ℚ
  synctime : Nat
  daqstate : String
  stt_imjd : Int
  stt_smjd : Int
  stt_offs : ℚ
deriving DecidableEq

/-- The timespec computed on the transition into RECORD (lines 433-443):
`ts.tv_sec = synctime + rint(realtime_secs)`,
`ts.tv_nsec = (long)((realtime_secs - rint(realtime_secs)) * 1e9)`. -/
def record_start_timespec (synctime : Nat) (realtime_secs : ℚ) : Timespec :=
  ⟨(synctime : Int) + rintQ realtime_secs,
   truncQ ((realtime_secs - (rintQ realtime_secs : ℚ)) * 1000000000)⟩

/-- `check_start_stop` (lines 397-461): gate RECORD on
`PKTSTART <= pktidx < PKTSTOP`; on the transition into RECORD (STTVALID was
not 1) compute `realtime_secs = pktidx * pktntime / (1e6 * |chan_bw|)`
(guarded against `chan_bw == 0`, line 438) and store the MJD of
`SYNCTIME + realtime_secs` plus `STTVALID = 1`; out of the window set
`DAQSTATE = LISTEN` and clear STTVALID. -/
def check_start_stop (st : StatusBuf) (pktidx : Nat) : RunStates × StatusBuf :=
  if st.pktstart ≤ pktidx ∧ pktidx < st.pktstop then
    if st.sttvalid ≠ 1 then
      let realtime_secs : ℚ :=
        if st.chan_bw = 0 then 0
        else ((pktidx : ℚ) * (st.pktntime : ℚ)) / (1000000 * |st.chan_bw|)
      let mjd := get_mjd_from_timespec (record_start_timespec st.synctime realtime_secs)
      (RunStates.RECORD,
       { st with daqstate := "RECORD", sttvalid := 1,
                 stt_imjd := mjd.1, stt_smjd := mjd.2.1, stt_offs := mjd.2.2 })
    else
      (RunStates.RECORD, { st with daqstate := "RECORD" })
  else
    (RunStates.LISTEN,
     { st with daqstate := "LISTEN",
               sttvalid := if st.sttvalid ≠ 0 then 0 else st.sttvalid })

/-! ### Helper lemmas -/

/-- A packet whose block is neither working block scatters into nothing. -/
lemma scatter_phase_miss (e p : Nat) (s : AsmState) (B : Int)
    (h0 : B ≠ s.wblk0.block_num) (h1 : B ≠ s.wblk0.block_num + 1) :
    scatter_phase e p s B = (s, []) := by
  unfold scatter_phase
  rw [if_neg (show ¬ B - s.wblk0.block_num = 0 by omega),
      if_neg (show ¬ B - s.wblk0.block_num = 1 by omega)]

/-- The scatter bookkeeping never changes the working blocks' numbers. -/
lemma scatter_phase_block_nums (e p : Nat) (s : AsmState) (B : Int) :
    (scatter_phase e p s B).1.wblk0.block_num = s.wblk0.block_num
    ∧ (scatter_phase e p s B).1.wblk1.block_num = s.wblk1.block_num := by
  unfold scatter_phase scatter_touch
  split_ifs <;> simp

/-- The scatter bookkeeping finalizes nothing. -/
lemma scatter_phase_no_finalize (e p : Nat) (s : AsmState) (B : Int) :
    finalizedNums (scatter_phase e p s B).2 = [] := by
  unfold scatter_phase
  split_ifs <;> simp [finalizedNums]

/-- The scatter bookkeeping never warns. -/
lemma scatter_phase_no_warn (e p : Nat) (s : AsmState) (B : Int) :
    Ev.warned ∉ (scatter_phase e p s B).2 := by
  unfold scatter_phase
  split_ifs <;> simp

/-! ### Claim C1 (scatter address math) -/

/-- Claim C1: the claim (with the spec) places the sample for time t and
channel c at base `feng_id × fid_stride + stream × stream_stride +
(pktidx mod PIPERBLK) × pktidx_stride` plus `t + c × ostride`; the code
instead advances by `(pktidx − PIPERBLK) × pktidx_stride` (line 357).
Evaluated at PIPERBLK = 128, PKTNTIME = 16, PKTNCHAN = 64, NSTRM = 1,
SCHAN = 0, packet (pktidx = 256, feng_id = 0, feng_chan = 0), sample
(t, c) = (0, 0): the code writes at 16-bit-unit offset 8192 where the
spec's math says 0 — the write lands a full pktidx-cell range outside the
packet's cell (and outside the block for larger pktidx). -/
theorem claim1_scatter_offset_eval :
    copy_packet_data_to_databuf ⟨0, 2, 128, 128, 0, 0⟩ ⟨1, 1, 16, 64, 0⟩
        ⟨256, 0, 0, 2048⟩ 0 0 = 8192
    ∧ claimed_scatter_offset ⟨1, 1, 16, 64, 0⟩ 128 ⟨256, 0, 0, 2048⟩ 0 0 = 0
    ∧ (8192 : Nat) ≠ 0 := by
  refine ⟨by decide, by decide, by decide⟩

/-- The two address computations agree exactly on block 1 (pktidx in
[PIPERBLK, 2·PIPERBLK)): there `pktidx − PIPERBLK = pktidx mod PIPERBLK`. -/
lemma scatter_offset_agree_block_one (bi : BlockInfo) (oi : ObsInfo)
    (fei : FengInfo) (t c : Nat)
    (hlo : bi.pktidx_per_block ≤ fei.pktidx)
    (hhi : fei.pktidx < 2 * bi.pktidx_per_block)
    (hb : fei.pktidx < 2 ^ 64) :
    copy_packet_data_to_databuf bi oi fei t c
      = claimed_scatter_offset oi bi.pktidx_per_block fei t c := by
  unfold copy_packet_data_to_databuf claimed_scatter_offset
  have h1 : (fei.pktidx + 2 ^ 64 - bi.pktidx_per_block) % 2 ^ 64
      = fei.pktidx % bi.pktidx_per_block := by
    have h2 : fei.pktidx + 2 ^ 64 - bi.pktidx_per_block
        = (fei.pktidx - bi.pktidx_per_block) + 2 ^ 64 := by omega
    have h3 : fei.pktidx - bi.pktidx_per_block < 2 ^ 64 := by omega
    have h4 : fei.pktidx % bi.pktidx_per_block
        = fei.pktidx - bi.pktidx_per_block := by
      rw [Nat.mod_eq_sub_mod hlo, Nat.mod_eq_of_lt (by omega)]
    rw [h2, Nat.add_mod_right, Nat.mod_eq_of_lt h3, h4]
  rw [h1]

/-! ### Claim C6 (finalize_block) -/

/-- Claim C6: for every block whose `ndrop` counter is still in its
initialized state (0, as established by `reset_block_info_stats` at block
init, the only other writer), `finalize_block` computes
`ndrop = max(0, pkts_per_block − npacket)` — clamped at 0 when `npacket`
exceeds `pkts_per_block` — and writes PKTIDX = block_num × pktidx_per_block,
NPKT = npacket, NDROP = ndrop and DROPSTAT = "ndrop/pkts_per_block" into
the block header, marking ring slot `block_idx_out` filled. -/
theorem claim6_finalize_block (bi : BlockInfo) (h0 : bi.ndrop = 0)
    (hpk : bi.pkts_per_block < 2 ^ 32) :
    ((finalize_block bi).1.ndrop : Int)
        = max 0 ((bi.pkts_per_block : Int) - (bi.npacket : Int))
    ∧ (finalize_block bi).2.pktidx = bi.block_num * (bi.pktidx_per_block : Int)
    ∧ (finalize_block bi).2.npkt = bi.npacket
    ∧ (finalize_block bi).2.ndrop = (finalize_block bi).1.ndrop
    ∧ (finalize_block bi).2.dropstat
        = toString (finalize_block bi).1.ndrop ++ "/" ++ toString bi.pkts_per_block
    ∧ (finalize_block bi).2.filled_idx = bi.block_idx_out := by
  by_cases h : bi.npacket < bi.pkts_per_block
  · have hmod : (bi.pkts_per_block - bi.npacket) % 2 ^ 32
        = bi.pkts_per_block - bi.npacket :=
      Nat.mod_eq_of_lt (lt_of_le_of_lt (Nat.sub_le _ _) hpk)
    refine ⟨?_, ?_, ?_, ?_, ?_, ?_⟩ <;> simp [finalize_block, h, hmod]
    omega
  · refine ⟨?_, ?_, ?_, ?_, ?_, ?_⟩ <;> simp [finalize_block, h, h0]
    omega

/-- Witness for C6: a block with 100 of 128 packets received. -/
theorem claim6_witness :
    ((finalize_block ⟨0, 2, 128, 128, 100, 0⟩).1.ndrop : Int)
      = max 0 (((⟨0, 2, 128, 128, 100, 0⟩ : BlockInfo).pkts_per_block : Int)
          - ((⟨0, 2, 128, 128, 100, 0⟩ : BlockInfo).npacket : Int)) :=
  (claim6_finalize_block ⟨0, 2, 128, 128, 100, 0⟩ rfl (by decide)).1

/-! ### Claim C8 (PKTSTART normalization) -/

/-- Claim C8: every PKTSTART value the loop writes back to the status
buffer is the read value rounded down to a multiple of `pktidx_per_block`
(lines 1140-1142), hence a multiple of PIPERBLK. -/
theorem claim8_pktstart_multiple (s p : Nat) : p ∣ pktstart_writeback s p := by
  unfold pktstart_writeback
  exact Nat.dvd_sub_mod s

/-! ### Claim C2 (advance) -/

/-- Counterexample to claim C2 as stated: with PIPERBLK = 1 and the startup
window {0, 1}, the packet for block B = 2 triggers an advance, after which
the packet is scattered into working block index 1 — the freshly acquired
block holding block_num B — and not into the new `W[0]` (= the old `W[1]`,
block_num 1), whose packet counter stays 0. -/
theorem claim2_counterexample :
    scatterTargets (asm_run 8 128 1 asmInit [2]).2 = [(1, 2)]
    ∧ (asm_run 8 128 1 asmInit [2]).1.wblk0.block_num = 1
    ∧ (asm_run 8 128 1 asmInit [2]).1.wblk0.npacket = 0
    ∧ (asm_run 8 128 1 asmInit [2]).1.wblk1.npacket = 1 := by
  refine ⟨by decide, by decide, by decide, by decide⟩

/-- Claim C2 (amended): whenever a packet's block number B equals
`W[1].block_num + 1`, the assembler finalizes `W[0]`, shifts `W[1]` into
`W[0]`, initializes a new `W[1]` with block_num = B after waiting for that
ring slot to be free, and then scatters the triggering packet into the NEW
`W[1]` (the freshly acquired block, which now holds block B), counting it
there. -/
theorem claim2_advance (n e p : Nat) (s : AsmState) (B : Int)
    (hB : B = s.wblk1.block_num + 1) :
    (asm_step n e p s B).1.wblk0 = s.wblk1
    ∧ (asm_step n e p s B).1.wblk1.block_num = B
    ∧ (asm_step n e p s B).1.wblk1.npacket = 1
    ∧ (asm_step n e p s B).2 =
        [Ev.finalized (finalize_block s.wblk0).2,
         Ev.waitedFree ((s.wblk1.block_idx_out + 1) % (n : Int)),
         Ev.scattered 1 B] := by
  have hm : manage_blocks n e s B =
      (⟨s.wblk1, increment_block n s.wblk1 B, s.nlate,
        s.ndrop_total + (finalize_block s.wblk0).1.ndrop⟩,
       [Ev.finalized (finalize_block s.wblk0).2,
        Ev.waitedFree (increment_block n s.wblk1 B).block_idx_out]) := by
    unfold manage_blocks
    rw [if_pos hB]
  have hsc : scatter_phase e p
      (⟨s.wblk1, increment_block n s.wblk1 B, s.nlate,
        s.ndrop_total + (finalize_block s.wblk0).1.ndrop⟩ : AsmState) B =
      (⟨s.wblk1, scatter_touch e p (increment_block n s.wblk1 B), s.nlate,
        s.ndrop_total + (finalize_block s.wblk0).1.ndrop⟩,
       [Ev.scattered 1 (increment_block n s.wblk1 B).block_num]) := by
    unfold scatter_phase
    rw [if_neg (show ¬ B - s.wblk1.block_num = 0 by omega),
        if_pos (show B - s.wblk1.block_num = 1 by omega)]
  unfold asm_step
  rw [hm]
  dsimp only
  rw [hsc]
  dsimp only [scatter_touch, increment_block, reset_block_info_stats]
  exact ⟨rfl, rfl, rfl, rfl⟩

/-- Witness for C2 (amended) at the startup window and B = 2. -/
theorem claim2_witness :
    (asm_step 8 128 1 asmInit 2).1.wblk0 = asmInit.wblk1
    ∧ (asm_step 8 128 1 asmInit 2).1.wblk1.block_num = 2
    ∧ (asm_step 8 128 1 asmInit 2).1.wblk1.npacket = 1
    ∧ (asm_step 8 128 1 asmInit 2).2 =
        [Ev.finalized (finalize_block asmInit.wblk0).2,
         Ev.waitedFree ((asmInit.wblk1.block_idx_out + 1) % (8 : Int)),
         Ev.scattered 1 2] :=
  claim2_advance 8 128 1 asmInit 2 (by decide)

/-! ### Claim C5 (discontinuity reinit) -/

/-- Claim C5: whenever a packet's block number B satisfies
`B < W[0].block_num − 1` or `B > W[1].block_num + 1`, both working blocks
are reinitialized to block numbers B+1 and B+2, a warning is issued, and
the triggering packet itself is scattered into no block. -/
theorem claim5_reinit (n e p : Nat) (s : AsmState) (B : Int)
    (hw : window_inv s)
    (hd : B < s.wblk0.block_num - 1 ∨ s.wblk1.block_num + 1 < B) :
    (asm_step n e p s B).1.wblk0.block_num = B + 1
    ∧ (asm_step n e p s B).1.wblk1.block_num = B + 2
    ∧ Ev.warned ∈ (asm_step n e p s B).2
    ∧ scatterTargets (asm_step n e p s B).2 = [] := by
  unfold window_inv at hw
  have h1 : ¬ B = s.wblk1.block_num + 1 := by omega
  have hm : manage_blocks n e s B =
      (⟨init_block_info s.wblk0 (-1) (B + 1) e,
        init_block_info s.wblk1 (-1) (B + 2) e,
        s.nlate, s.ndrop_total⟩,
       [Ev.warned]) := by
    unfold manage_blocks
    rw [if_neg h1, if_pos hd]
  have hb0 : (init_block_info s.wblk0 (-1) (B + 1) e).block_num = B + 1 := rfl
  have hsc : scatter_phase e p
      (⟨init_block_info s.wblk0 (-1) (B + 1) e,
        init_block_info s.wblk1 (-1) (B + 2) e,
        s.nlate, s.ndrop_total⟩ : AsmState) B =
      (⟨init_block_info s.wblk0 (-1) (B + 1) e,
        init_block_info s.wblk1 (-1) (B + 2) e,
        s.nlate, s.ndrop_total⟩, []) := by
    apply scatter_phase_miss <;> simp only [hb0] <;> omega
  unfold asm_step
  rw [hm]
  simp only [hsc]
  refine ⟨rfl, rfl, by simp, by simp [scatterTargets]⟩

/-- Witness for C5: startup window {0, 1}, discontinuity packet for
block 78 (the spec's scenario S4). -/
theorem claim5_witness :
    (asm_step 8 128 1 asmInit 78).1.wblk0.block_num = 78 + 1
    ∧ (asm_step 8 128 1 asmInit 78).1.wblk1.block_num = 78 + 2
    ∧ Ev.warned ∈ (asm_step 8 128 1 asmInit 78).2
    ∧ scatterTargets (asm_step 8 128 1 asmInit 78).2 = [] :=
  claim5_reinit 8 128 1 asmInit 78 (by decide) (by decide)

/-! ### Claim C3 (partial blocks at a discontinuity) -/

/-- Counterexample to claim C3: feed pktidx 0 (scattered into block 0,
so `W[0].npacket = 1`), then the discontinuity pktidx 78 (PIPERBLK = 1).
The partial block 0 is NOT finalized — the whole run hands nothing
downstream — even though the window is reinitialized (warning issued). -/
theorem claim3_counterexample :
    (asm_run 8 128 1 asmInit [0]).1.wblk0.npacket = 1
    ∧ finalizedNums (asm_run 8 128 1 asmInit [0, 78]).2 = []
    ∧ Ev.warned ∈ (asm_run 8 128 1 asmInit [0, 78]).2 := by
  refine ⟨by decide, by decide, by decide⟩

/-- Claim C3 (amended): when a discontinuity packet arrives
(`B < W[0].block_num − 1` or `B > W[1].block_num + 1`), the partial
working blocks are NOT finalized and nothing is handed downstream: both
blocks are reinitialized in place — same output-ring slots, packet and
drop counters reset to zero — discarding their accumulated contents and
statistics. -/
theorem claim3_reinit_discards (n e p : Nat) (s : AsmState) (B : Int)
    (hw : window_inv s)
    (hd : B < s.wblk0.block_num - 1 ∨ s.wblk1.block_num + 1 < B) :
    finalizedNums (asm_step n e p s B).2 = []
    ∧ (asm_step n e p s B).1.wblk0.npacket = 0
    ∧ (asm_step n e p s B).1.wblk1.npacket = 0
    ∧ (asm_step n e p s B).1.wblk0.block_idx_out = s.wblk0.block_idx_out
    ∧ (asm_step n e p s B).1.wblk1.block_idx_out = s.wblk1.block_idx_out := by
  unfold window_inv at hw
  have h1 : ¬ B = s.wblk1.block_num + 1 := by omega
  have hm : manage_blocks n e s B =
      (⟨init_block_info s.wblk0 (-1) (B + 1) e,
        init_block_info s.wblk1 (-1) (B + 2) e,
        s.nlate, s.ndrop_total⟩,
       [Ev.warned]) := by
    unfold manage_blocks
    rw [if_neg h1, if_pos hd]
  have hb0 : (init_block_info s.wblk0 (-1) (B + 1) e).block_num = B + 1 := rfl
  have hsc : scatter_phase e p
      (⟨init_block_info s.wblk0 (-1) (B + 1) e,
        init_block_info s.wblk1 (-1) (B + 2) e,
        s.nlate, s.ndrop_total⟩ : AsmState) B =
      (⟨init_block_info s.wblk0 (-1) (B + 1) e,
        init_block_info s.wblk1 (-1) (B + 2) e,
        s.nlate, s.ndrop_total⟩, []) := by
    apply scatter_phase_miss <;> simp only [hb0] <;> omega
  unfold asm_step
  rw [hm]
  simp only [hsc]
  refine ⟨by simp [finalizedNums], rfl, rfl, ?_, ?_⟩ <;>
    simp [init_block_info, reset_block_info_stats]

/-- Witness for C3 (amended): startup window, discontinuity block 78. -/
theorem claim3_witness :
    finalizedNums (asm_step 8 128 1 asmInit 78).2 = []
    ∧ (asm_step 8 128 1 asmInit 78).1.wblk0.npacket = 0
    ∧ (asm_step 8 128 1 asmInit 78).1.wblk1.npacket = 0
    ∧ (asm_step 8 128 1 asmInit 78).1.wblk0.block_idx_out = asmInit.wblk0.block_idx_out
    ∧ (asm_step 8 128 1 asmInit 78).1.wblk1.block_idx_out = asmInit.wblk1.block_idx_out :=
  claim3_reinit_discards 8 128 1 asmInit 78 (by decide) (by decide)

/-! ### Claim C4 (finalize-once / strictly increasing) -/

lemma finalizedNums_append (l1 l2 : List Ev) :
    finalizedNums (l1 ++ l2) = finalizedNums l1 ++ finalizedNums l2 := by
  unfold finalizedNums
  exact List.filterMap_append _ _ _

lemma manage_blocks_advance_eq (n e : Nat) (s : AsmState) (B : Int)
    (h1 : B = s.wblk1.block_num + 1) :
    manage_blocks n e s B =
      (⟨s.wblk1, increment_block n s.wblk1 B, s.nlate,
        s.ndrop_total + (finalize_block s.wblk0).1.ndrop⟩,
       [Ev.finalized (finalize_block s.wblk0).2,
        Ev.waitedFree (increment_block n s.wblk1 B).block_idx_out]) := by
  unfold manage_blocks
  rw [if_pos h1]

lemma manage_blocks_reinit_eq (n e : Nat) (s : AsmState) (B : Int)
    (h1 : ¬ B = s.wblk1.block_num + 1)
    (h2 : B < s.wblk0.block_num - 1 ∨ s.wblk1.block_num + 1 < B) :
    manage_blocks n e s B =
      (⟨init_block_info s.wblk0 (-1) (B + 1) e,
        init_block_info s.wblk1 (-1) (B + 2) e,
        s.nlate, s.ndrop_total⟩,
       [Ev.warned]) := by
  unfold manage_blocks
  rw [if_neg h1, if_pos h2]

lemma manage_blocks_late_eq (n e : Nat) (s : AsmState) (B : Int)
    (h1 : ¬ B = s.wblk1.block_num + 1)
    (h2 : ¬ (B < s.wblk0.block_num - 1 ∨ s.wblk1.block_num + 1 < B))
    (h3 : B = s.wblk0.block_num - 1) :
    manage_blocks n e s B = ({ s with nlate := s.nlate + 1 }, []) := by
  unfold manage_blocks
  rw [if_neg h1, if_neg h2, if_pos h3]

lemma manage_blocks_in_window_eq (n e : Nat) (s : AsmState) (B : Int)
    (h1 : ¬ B = s.wblk1.block_num + 1)
    (h2 : ¬ (B < s.wblk0.block_num - 1 ∨ s.wblk1.block_num + 1 < B))
    (h3 : ¬ B = s.wblk0.block_num - 1) :
    manage_blocks n e s B = (s, []) := by
  unfold manage_blocks
  rw [if_neg h1, if_neg h2, if_neg h3]

/-- One step of the assembler either finalizes nothing and keeps
`wblk[0].block_num`, or (advance) finalizes exactly the current
`wblk[0].block_num` and increases `wblk[0].block_num` by one; in either
case the window invariant is preserved — provided the step did not take
the discontinuity-reinit branch (no warning emitted). -/
lemma asm_step_cases (n e p : Nat) (s : AsmState) (B : Int) (hw : window_inv s)
    (hnw : Ev.warned ∉ (asm_step n e p s B).2) :
    (finalizedNums (asm_step n e p s B).2 = []
      ∧ (asm_step n e p s B).1.wblk0.block_num = s.wblk0.block_num
      ∧ window_inv (asm_step n e p s B).1)
    ∨ (finalizedNums (asm_step n e p s B).2 = [s.wblk0.block_num]
      ∧ (asm_step n e p s B).1.wblk0.block_num = s.wblk0.block_num + 1
      ∧ window_inv (asm_step n e p s B).1) := by
  unfold window_inv at hw ⊢
  by_cases h1 : B = s.wblk1.block_num + 1
  · right
    unfold asm_step
    rw [manage_blocks_advance_eq n e s B h1]
    dsimp only
    obtain ⟨hb0, hb1⟩ := scatter_phase_block_nums e p
      (⟨s.wblk1, increment_block n s.wblk1 B, s.nlate,
        s.ndrop_total + (finalize_block s.wblk0).1.ndrop⟩ : AsmState) B
    refine ⟨?_, ?_, ?_⟩
    · rw [finalizedNums_append, scatter_phase_no_finalize, List.append_nil]
      rfl
    · rw [hb0]
      exact hw
    · rw [hb1, hb0]
      exact h1
  · by_cases h2 : B < s.wblk0.block_num - 1 ∨ s.wblk1.block_num + 1 < B
    · exfalso
      apply hnw
      unfold asm_step
      rw [manage_blocks_reinit_eq n e s B h1 h2]
      dsimp only
      exact List.mem_append_left _ (by simp)
    · by_cases h3 : B = s.wblk0.block_num - 1
      · left
        unfold asm_step
        rw [manage_blocks_late_eq n e s B h1 h2 h3]
        dsimp only
        obtain ⟨hb0, hb1⟩ := scatter_phase_block_nums e p
          ({ s with nlate := s.nlate + 1 }) B
        refine ⟨?_, ?_, ?_⟩
        · rw [List.nil_append, scatter_phase_no_finalize]
        · rw [hb0]
        · rw [hb1, hb0]
          exact hw
      · left
        unfold asm_step
        rw [manage_blocks_in_window_eq n e s B h1 h2 h3]
        dsimp only
        obtain ⟨hb0, hb1⟩ := scatter_phase_block_nums e p s B
        refine ⟨?_, ?_, ?_⟩
        · rw [List.nil_append, scatter_phase_no_finalize]
        · rw [hb0]
        · rw [hb1, hb0]
          exact hw

/-- Along any run that never takes the discontinuity-reinit branch, the
finalized block numbers are strictly increasing, all of them lie between
the initial and the final `wblk[0].block_num`, and `wblk[0].block_num`
never decreases. -/
lemma asm_run_fins_mono (n e p : Nat) :
    ∀ (pkts : List Nat) (s : AsmState), window_inv s →
      Ev.warned ∉ (asm_run n e p s pkts).2 →
      (finalizedNums (asm_run n e p s pkts).2).Pairwise (· < ·)
      ∧ (∀ b ∈ finalizedNums (asm_run n e p s pkts).2,
           s.wblk0.block_num ≤ b ∧ b < (asm_run n e p s pkts).1.wblk0.block_num)
      ∧ s.wblk0.block_num ≤ (asm_run n e p s pkts).1.wblk0.block_num
  | [], s, hw, hnw => by
      simp [asm_run, finalizedNums]
  | pk :: ps, s, hw, hnw => by
      simp only [asm_run] at hnw ⊢
      rw [finalizedNums_append]
      simp only [List.mem_append, not_or] at hnw
      obtain ⟨hnw1, hnw2⟩ :
          Ev.warned ∉ (asm_step n e p s ((pk / p : Nat) : Int)).2
          ∧ Ev.warned ∉ (asm_run n e p
              (asm_step n e p s ((pk / p : Nat) : Int)).1 ps).2 := hnw
      have hstep := asm_step_cases n e p s ((pk / p : Nat) : Int) hw hnw1
      have hw1 : window_inv (asm_step n e p s ((pk / p : Nat) : Int)).1 := by
        rcases hstep with ⟨_, _, h⟩ | ⟨_, _, h⟩ <;> exact h
      obtain ⟨IH1, IH2, IH3⟩ :=
        asm_run_fins_mono n e p ps (asm_step n e p s ((pk / p : Nat) : Int)).1 hw1 hnw2
      rcases hstep with ⟨hf, hb, _⟩ | ⟨hf, hb, _⟩
      · rw [hf, List.nil_append]
        refine ⟨IH1, ?_, ?_⟩
        · intro b hbm
          obtain ⟨l, r⟩ := IH2 b hbm
          exact ⟨by omega, r⟩
        · omega
      · rw [hf, List.singleton_append]
        refine ⟨?_, ?_, ?_⟩
        · rw [List.pairwise_cons]
          refine ⟨?_, IH1⟩
          intro b hbm
          have := (IH2 b hbm).1
          omega
        · intro b hbm
          rcases List.mem_cons.mp hbm with hbeq | hbm2
          · subst hbeq
            exact ⟨le_refl _, by omega⟩
          · obtain ⟨l, r⟩ := IH2 b hbm2
            exact ⟨by omega, r⟩
        · omega

/-- Counterexample to claim C4 as stated: with PIPERBLK = 1 and the
startup window {0, 1}, the packet sequence (by pktidx) 2, 3, 0, 3
finalizes blocks 0, 1 and then — after the backward discontinuity at
pktidx 0 reinitializes the window to {1, 2} — finalizes block 1 a second
time: the finalized sequence [0, 1, 1] is neither strictly increasing nor
duplicate-free. -/
theorem claim4_counterexample :
    finalizedNums (asm_run 8 128 1 asmInit [2, 3, 0, 3]).2 = [0, 1, 1]
    ∧ ¬ (finalizedNums (asm_run 8 128 1 asmInit [2, 3, 0, 3]).2).Pairwise (· < ·)
    ∧ ¬ (finalizedNums (asm_run 8 128 1 asmInit [2, 3, 0, 3]).2).Nodup := by
  refine ⟨by decide, by decide, by decide⟩

/-- Claim C4 (amended): over every packet sequence that triggers no
discontinuity reinitialization (no warning issued — in particular no
backward discontinuity), the finalized block numbers are strictly
increasing in the order they are marked filled on the output ring, so each
block number is finalized at most once.  (A backward discontinuity moves
the window behind already-finalized blocks and the same block number can
then be finalized again, as the counterexample shows.) -/
theorem claim4_finalize_monotone (n e p : Nat) (pkts : List Nat) (s : AsmState)
    (hw : window_inv s)
    (hnw : Ev.warned ∉ (asm_run n e p s pkts).2) :
    (finalizedNums (asm_run n e p s pkts).2).Pairwise (· < ·)
    ∧ (finalizedNums (asm_run n e p s pkts).2).Nodup := by
  have h := (asm_run_fins_mono n e p pkts s hw hnw).1
  exact ⟨h, h.imp ne_of_lt⟩

/-- Witness for C4 (amended): a clean three-advance run finalizing
blocks 0, 1, 2 in order. -/
theorem claim4_witness :
    (finalizedNums (asm_run 8 128 1 asmInit [2, 3, 4]).2).Pairwise (· < ·)
    ∧ (finalizedNums (asm_run 8 128 1 asmInit [2, 3, 4]).2).Nodup :=
  claim4_finalize_monotone 8 128 1 [2, 3, 4] asmInit (by decide) (by decide)

/-! ### Claim C7 (state gating and observation start time) -/

/-- Claim C7: after every call of check_start_stop with packet index p,
STTVALID equals 1 iff PKTSTART ≤ p < PKTSTOP; on the transition into
RECORD (STTVALID not yet 1, `chan_bw` non-zero) the STT_IMJD, STT_SMJD and
STT_OFFS written are the MJD of SYNCTIME plus
`realtime_secs = p × PKTNTIME / (1e6 × |CHAN_BW|)`; and further in-window
calls (STTVALID already 1) leave STT_IMJD/STT_SMJD/STT_OFFS unchanged. -/
theorem claim7_check_start_stop (st : StatusBuf) (p : Nat) :
    ((check_start_stop st p).2.sttvalid = 1 ↔ (st.pktstart ≤ p ∧ p < st.pktstop))
    ∧ (st.pktstart ≤ p → p < st.pktstop → st.sttvalid ≠ 1 → st.chan_bw ≠ 0 →
        (check_start_stop st p).2.stt_imjd
            = (get_mjd_from_timespec (record_start_timespec st.synctime
                (((p : ℚ) * (st.pktntime : ℚ)) / (1000000 * |st.chan_bw|)))).1
        ∧ (check_start_stop st p).2.stt_smjd
            = (get_mjd_from_timespec (record_start_timespec st.synctime
                (((p : ℚ) * (st.pktntime : ℚ)) / (1000000 * |st.chan_bw|)))).2.1
        ∧ (check_start_stop st p).2.stt_offs
            = (get_mjd_from_timespec (record_start_timespec st.synctime
                (((p : ℚ) * (st.pktntime : ℚ)) / (1000000 * |st.chan_bw|)))).2.2)
    ∧ (st.pktstart ≤ p → p < st.pktstop → st.sttvalid = 1 →
        (check_start_stop st p).2.stt_imjd = st.stt_imjd
        ∧ (check_start_stop st p).2.stt_smjd = st.stt_smjd
        ∧ (check_start_stop st p).2.stt_offs = st.stt_offs) := by
  by_cases hin : st.pktstart ≤ p ∧ p < st.pktstop
  · by_cases hv : st.sttvalid = 1
    · have hne : ¬ st.sttvalid ≠ 1 := by simp [hv]
      unfold check_start_stop
      rw [if_pos hin, if_neg hne]
      refine ⟨by simp [hv, hin], ?_, ?_⟩
      · intro _ _ habs _
        exact absurd hv habs
      · intro _ _ _
        exact ⟨rfl, rfl, rfl⟩
    · unfold check_start_stop
      rw [if_pos hin, if_pos hv]
      refine ⟨by simp [hin], ?_, ?_⟩
      · intro _ _ _ hbw
        rw [if_neg hbw]
        exact ⟨rfl, rfl, rfl⟩
      · intro _ _ habs
        exact absurd habs hv
  · unfold check_start_stop
    rw [if_neg hin]
    refine ⟨?_, ?_, ?_⟩
    · simp only [hin, iff_false]
      by_cases hz : st.sttvalid ≠ 0
      · simp [hz]
      · simp only [hz, if_false]
        simp only [ne_eq, not_not] at hz
        simp [hz]
    · intro h1 h2
      exact absurd ⟨h1, h2⟩ hin
    · intro h1 h2
      exact absurd ⟨h1, h2⟩ hin

/-- A concrete status buffer about to transition into RECORD:
PKTSTART = 0, PKTSTOP = 10, STTVALID = 0, PKTNTIME = 16, CHAN_BW = 1,
SYNCTIME = 0. -/
def stExample : StatusBuf :=
  ⟨0, 0, 10, 16, 1, 0, "LISTEN", 0, 0, 0⟩

/-- Witness for C7 at `stExample` and p = 5. -/
theorem claim7_witness :
    (check_start_stop stExample 5).2.sttvalid = 1
    ∧ (check_start_stop stExample 5).2.stt_imjd
        = (get_mjd_from_timespec (record_start_timespec stExample.synctime
            (((5 : ℚ) * (stExample.pktntime : ℚ)) / (1000000 * |stExample.chan_bw|)))).1 := by
  have h := claim7_check_start_stop stExample 5
  refine ⟨h.1.mpr ⟨by decide, by decide⟩, ?_⟩
  exact (h.2.1 (by decide) (by decide) (by decide) (by norm_num [stExample])).1

/-! ### Claim C9 (payload-size handling) -/

/-- Counterexample to claim C9: the payload-size check is compiled out
(`#if 0`, lines 1079-1092), so a frame whose payload size (999) differs
from a previously accepted size (1024, the size the disabled check names)
is accepted and scattered normally — it is not dropped and no NBOGUS
counter exists in this thread. -/
theorem claim9_counterexample :
    packet_accepted ⟨1, 1, 16, 64, 0⟩ ⟨128, 0, 0, 1024⟩ = true
    ∧ packet_accepted ⟨1, 1, 16, 64, 0⟩ ⟨129, 0, 0, 999⟩ = true
    ∧ scatterTargets (ingest_pkt 8 128 128 ⟨1, 1, 16, 64, 0⟩ asmInit ⟨129, 0, 0, 999⟩).2
        ≠ [] := by
  refine ⟨by decide, by decide, by decide⟩

/-- Claim C9 (amended): the voltage thread performs no payload-size check
(the check is compiled out) and maintains no NBOGUS counter: a packet's
payload size has no effect whatsoever on its processing, and the only
per-packet rejection is `feng_id ≥ NANTS`, which drops the frame without
disturbing the working-block window. -/
theorem claim9_size_ignored (n e p : Nat) (oi : ObsInfo) (s : AsmState)
    (fei : FengInfo) (sz : Nat) :
    ingest_pkt n e p oi s { fei with payload_size := sz } = ingest_pkt n e p oi s fei
    ∧ (oi.nants ≤ fei.feng_id → ingest_pkt n e p oi s fei = (s, [])) := by
  constructor
  · rfl
  · intro h
    have hlt : ¬ fei.feng_id < oi.nants := Nat.not_lt.mpr h
    simp [ingest_pkt, packet_accepted, hlt]

/-- Witness for C9 (amended): a frame with `feng_id = 5 ≥ NANTS = 1` is
dropped, leaving the startup window untouched. -/
theorem claim9_witness :
    ingest_pkt 8 128 128 ⟨1, 1, 16, 64, 0⟩ asmInit ⟨129, 5, 0, 1024⟩ = (asmInit, []) :=
  (claim9_size_ignored 8 128 128 ⟨1, 1, 16, 64, 0⟩ asmInit ⟨129, 5, 0, 1024⟩ 0).2
    (by decide)

/-! ### Claim C10 (once-per-block status republication latch) -/

/-- Counterexample to claim C10: the latch remembers only the most recent
triggering pktidx, so with PIPERBLK = 128 the boundary sequence
0, 128, 0 (e.g. a late antenna's boundary packet arriving after the next
boundary) triggers the status republication twice for pktidx 0 — not at
most once per distinct block-boundary pktidx value. -/
theorem claim10_counterexample : ¬ trigger_count 128 none [0, 128, 0] 0 ≤ 1 := by
  decide

/-- Claim C10 (amended): the republication triggers exactly when the
packet's pktidx is a block boundary AND differs from the latched
previously-triggering pktidx; consequently, among consecutive packets
sharing the same pktidx (one per antenna and stream), only the first
triggers the update — an immediately repeated pktidx never re-triggers. -/
theorem claim10_latch (piperblk : Nat) (latch : Option Nat) (pk : Nat) :
    ((status_update_boundary piperblk latch pk).2 = true
      ↔ (pk % piperblk = 0 ∧ some pk ≠ latch))
    ∧ (status_update_boundary piperblk
        (status_update_boundary piperblk latch pk).1 pk).2 = false := by
  constructor
  · unfold status_update_boundary
    by_cases h : pk % piperblk = 0 ∧ some pk ≠ latch
    · simp [h]
    · simp only [if_neg h]
      simpa using h
  · by_cases h : pk % piperblk = 0 ∧ some pk ≠ latch
    · simp [status_update_boundary, h]
    · simp [status_update_boundary, h]
